import Mathlib

/-!
Shallow embedding of the querybuilder-qt core (query history store, template
store, config store, API client protocol) for checking the natural-language
specification against the code.

Source files embedded:
  src/src/query_history.py   (QueryHistoryItem, QueryHistoryManager)
  src/src/template_manager.py (TemplateManager)
  src/src/db_manager.py      (DbManager.load_config)
  src/src/api_client.py      (ApiClient.execute_query, ApiClient.run_test_query)
  src/src/app.py             (QueryBuilder.display_results, run_query response path)

Python strings are modelled as Lean `String` (or `List Char` where character
level substring/replace semantics matter), Python dicts with a fixed key set as
structures, JSON values as an inductive `Json`, the wall clock as an explicit
`Nat` parameter (seconds since the epoch, which is the granularity the code
uses for ids), and exceptions as `Except`.
-/

set_option autoImplicit false

namespace QB

/-- JSON values, as produced by `json.load` / `response.json()`.  Numbers are
modelled as integers (no claim depends on float behaviour); an object is an
association list of fields with distinct keys, as a Python dict holds. -/
inductive Json where
  | null
  | bool (b : Bool)
  | num (n : Int)
  | str (s : String)
  | arr (elems : List Json)
  | obj (fields : List (String × Json))

/-- Key lookup in a JSON object: Python's `d[k]` / `k in d`.  Returns the
first binding (dict keys are unique, so first = only). -/
def lookupKey : List (String × Json) → String → Option Json
  | [], _ => none
  | (k, v) :: rest, key => if k == key then some v else lookupKey rest key

/-- Python truth-value test `not x` (negated): `None`, `False`, `0`, `""`,
`[]`, `{}` are falsy; everything else truthy. -/
def isFalsy : Json → Bool
  | .null => true
  | .bool b => !b
  | .num n => n == 0
  | .str s => s == ""
  | .arr elems => elems.isEmpty
  | .obj fields => fields.isEmpty

/-- `isinstance(x, list)`. -/
def isList : Json → Bool
  | .arr _ => true
  | _ => false

/-- `len(x)` for a JSON list (0 for non-lists, matching the code path that
guards with `isinstance`). -/
def listLen : Json → Nat
  | .arr elems => elems.length
  | _ => 0

/-- The database connection configuration dict
`{"type": ..., "url": ..., "tableName": ...}` (db_manager.py lines 10-14,
api_client.py `db_config` argument). -/
structure DbConfig where
  type : String
  url : String
  tableName : String
deriving DecidableEq

/-- Python `str.replace(pat, rep)` on character lists: replace every
non-overlapping occurrence of `pat`, scanning left to right.  `fuel` bounds
the recursion by the length of the remaining input (each step consumes at
least one character, so `fuel = s.length` never runs out).  The code only
ever calls this with the non-empty pattern `"{table_name}"`. -/
def replaceAux (pat rep : List Char) : Nat → List Char → List Char
  | _, [] => []
  | 0, s => s
  | fuel + 1, c :: cs =>
    if pat.isPrefixOf (c :: cs) && !pat.isEmpty then
      rep ++ replaceAux pat rep fuel (List.drop (pat.length - 1) cs)
    else
      c :: replaceAux pat rep fuel cs

/-- Python `s.replace(pat, rep)` (all occurrences, left to right). -/
def pyReplace (s pat rep : List Char) : List Char :=
  replaceAux pat rep s.length s

/-- Python substring test `pat in s`. -/
def containsSub (pat : List Char) : List Char → Bool
  | [] => pat.isEmpty
  | c :: cs => pat.isPrefixOf (c :: cs) || containsSub pat cs

/-- The placeholder token `"{table_name}"` (api_client.py line 37). -/
def tableTok : List Char := "{table_name}".data

/-- Query pre-processing, api_client.py lines 36-41: for the postgres dialect,
when the query contains the literal token `{table_name}`, substitute it with
the configured table name wrapped in double quotes; otherwise the query is
left as it is. -/
def processQuery (cfg : DbConfig) (query : List Char) : List Char :=
  if cfg.type == "postgres" && containsSub tableTok query then
    pyReplace query tableTok ("\"" ++ cfg.tableName ++ "\"").data
  else
    query

/-- The JSON request body `{"query", "dbConfig", "readOnly"}` sent to
`POST {base}/api/queries/execute` (api_client.py lines 52-56).  The body is
serialised before sending, so it carries the configuration by value (the code
embeds `db_config.copy()`, whose value equals `db_config`). -/
structure Payload where
  query : List Char
  dbConfig : DbConfig
  readOnly : Bool
deriving DecidableEq

/-- Request construction in `execute_query` (api_client.py lines 36-56):
pre-process the query, then build the payload around a copy of the config. -/
def mkPayload (query : List Char) (cfg : DbConfig) (readOnly : Bool) : Payload :=
  { query := processQuery cfg query, dbConfig := cfg, readOnly := readOnly }

/-- Outcome of one `requests.post` call: either an HTTP response (status code,
raw text body, parsed JSON body) or a network failure
(`requests.RequestException`) with its message. -/
inductive RemoteOutcome where
  | success (status : Nat) (text : String) (body : Json)
  | netFailure (cause : String)

/-- The kinds of error `execute_query` / `run_test_query` raise: the API error
`Exception(f"API Error ({status}): {text}")` and a propagated connection
error. -/
inductive ApiFailure where
  | apiError (status : Nat) (text : String)
  | connectionError (cause : String)

/-- Response handling shared verbatim by `execute_query` (api_client.py lines
78-93) and `run_test_query` (lines 145-162): on status 200 return the parsed
JSON body; on any other status raise an API error carrying status and raw
body; re-raise a network failure as a connection error. -/
def handleResponse : RemoteOutcome → Except ApiFailure Json
  | .success status text body =>
      if status == 200 then .ok body
      else .error (.apiError status text)
  | .netFailure cause => .error (.connectionError cause)

/-- `ApiClient.execute_query` (api_client.py lines 18-93), as a function of
the remote API's behaviour `remote : Payload → RemoteOutcome`: build the
payload (pre-processed query, config copy, read-only flag), send it, and
handle the response. -/
def execute_query (remote : Payload → RemoteOutcome)
    (query : List Char) (cfg : DbConfig) (readOnly : Bool) :
    Except ApiFailure Json :=
  handleResponse (remote (mkPayload query cfg readOnly))

/-- The fixed test query of `run_test_query` (api_client.py line 108). -/
def testQuery : List Char := "SELECT 1 as test".data

/-- The blank configuration of `run_test_query` (api_client.py lines 111-115). -/
def testConfig : DbConfig := { type := "postgres", url := "", tableName := "" }

/-- `ApiClient.run_test_query` (api_client.py lines 95-162): builds the payload
directly from the fixed query and blank config (no pre-processing step, no
copy), sends it, and handles the response with the same status logic; its
`except Exception` clause logs and re-raises the original exception, so
failures propagate unchanged. -/
def run_test_query (remote : Payload → RemoteOutcome) : Except ApiFailure Json :=
  handleResponse (remote { query := testQuery, dbConfig := testConfig, readOnly := true })

/-!
Heap-passing model of `execute_query` for its effect on the caller's
`db_config` dict.  Python dicts are mutable heap cells passed by reference:
a heap is a list of `DbConfig` cells addressed by index, `db_config.copy()`
(api_client.py line 49) allocates a fresh cell holding the same value, and
the payload embeds that fresh cell.  `execute_query` performs only reads on
the argument cell (lines 37, 40) plus the copy, so the returned heap extends
the input heap with the copy cell.
-/

/-- `ApiClient.execute_query` (api_client.py lines 18-93) with the caller's
`db_config` passed as a heap reference.  Returns the heap after the call, the
reference of the allocated copy cell (the one embedded in the payload), and
the result.  A dangling reference (impossible in the Python caller) is
modelled as an immediate failure touching nothing. -/
def execute_query_heap (remote : Payload → RemoteOutcome) (query : List Char)
    (heap : List DbConfig) (cfgRef : Nat) (readOnly : Bool) :
    List DbConfig × Option Nat × Except ApiFailure Json :=
  match heap.get? cfgRef with
  | some cfg =>
      (heap ++ [cfg], some heap.length,
       handleResponse (remote (mkPayload query cfg readOnly)))
  | none => (heap, none, .error (.connectionError "invalid config reference"))

/-!  Response display, app.py `QueryBuilder.display_results` / `run_query`.  -/

/-- What `display_results` does with a response: either the "no rows"
information box (app.py lines 321-325) or displaying the normalized rows in
the visualizer (lines 327-346). -/
inductive DisplayResult where
  | noRows
  | rows (data : Json)

/-- Response normalization, app.py lines 313-318: if the response is an
object with a `"data"` key, unwrap that field; otherwise use the value
directly. -/
def normalizeResponse (data : Json) : Json :=
  match data with
  | .obj fields =>
      match lookupKey fields "data" with
      | some inner => inner
      | none => .obj fields
  | other => other

/-- `QueryBuilder.display_results` (app.py lines 309-346): normalize, then
treat a falsy or empty-list result as the "no rows" success case, otherwise
display the rows. -/
def display_results (data : Json) : DisplayResult :=
  let actual := normalizeResponse data
  if isFalsy actual || (isList actual && listLen actual == 0) then
    .noRows
  else
    .rows actual

/-- The mock rows shown on a failed request, app.py lines 302-306. -/
def mock_data : Json :=
  .arr [
    .obj [("id", .num 1), ("name", .str "Sample 1"), ("value", .num 100)],
    .obj [("id", .num 2), ("name", .str "Sample 2"), ("value", .num 200)],
    .obj [("id", .num 3), ("name", .str "Sample 3"), ("value", .num 300)]]

/-- Outcome of submitting a query, app.py `run_query` lines 272-295: on a
successful call the response is displayed (possibly as "no rows"); on an
exception an error dialog is shown and mock rows are displayed. -/
inductive QueryOutcome where
  | success (shown : DisplayResult)
  | errorShown (err : ApiFailure) (mockShown : DisplayResult)

/-- The response path of `QueryBuilder.run_query` (app.py lines 272-295,
UI state changes elided): run `execute_query`, display the result; on
failure show an error dialog and the mock data. -/
def run_query (remote : Payload → RemoteOutcome) (query : List Char)
    (cfg : DbConfig) (readOnly : Bool) : QueryOutcome :=
  match execute_query remote query cfg readOnly with
  | .ok data => .success (display_results data)
  | .error e => .errorShown e (display_results mock_data)

/-!  Config store, db_manager.py `DbManager.load_config`.  -/

/-- What reading and parsing `db_config.json` can yield: the file is missing
(`FileNotFoundError` from `open`), unreadable (another `OSError`), present
but not valid JSON (`json.JSONDecodeError` from `json.load`), or valid. -/
inductive ConfigFile where
  | missing
  | unreadable (msg : String)
  | invalidJson (msg : String)
  | valid (cfg : Json)

/-- The exceptions `open` + `json.load` can raise, or the parsed value. -/
inductive IoError where
  | fileNotFound
  | osError (msg : String)
  | parseError (msg : String)
deriving DecidableEq

/-- `open("db_config.json") ; json.load(f)` (db_manager.py lines 25-26). -/
def readConfigFile : ConfigFile → Except IoError Json
  | .missing => .error .fileNotFound
  | .unreadable msg => .error (.osError msg)
  | .invalidJson msg => .error (.parseError msg)
  | .valid cfg => .ok cfg

/-- The default configuration set by `DbManager.__init__`
(db_manager.py lines 10-14) before `load_config` runs. -/
def defaultDbConfig : Json :=
  .obj [("type", .str "postgres"), ("url", .str ""), ("tableName", .str "")]

/-- `DbManager.load_config` (db_manager.py lines 22-30): try to read and
parse the file, replacing `self.db_config` (whose current value is
`current`); the `except FileNotFoundError: pass` clause keeps the current
value when the file is missing, and any other exception propagates to the
caller. -/
def load_config (current : Json) (file : ConfigFile) : Except IoError Json :=
  match readConfigFile file with
  | .ok cfg => .ok cfg
  | .error .fileNotFound => .ok current
  | .error e => .error e

/-!  History store, query_history.py.  -/

/-- `QueryHistoryItem` (query_history.py lines 10-17): one history entry. -/
structure QueryHistoryItem where
  id : String
  query : String
  db_type : String
  timestamp : String
  is_favorite : Bool
deriving DecidableEq

/-- `QueryHistoryItem.__init__` on the `add_query` path (query_history.py
lines 13-17, 87): `id = f"query_int(datetime.now().timestamp())"` with the
braces of the f-string elided here — the current time truncated to whole
seconds — `timestamp = datetime.now().isoformat()` (rendered abstractly from
the same clock), and `is_favorite = False`.  `now` is the wall clock in
seconds. -/
def mkQueryHistoryItem (now : Nat) (query db_type : String) : QueryHistoryItem :=
  { id := "query_" ++ toString now
    query := query
    db_type := db_type
    timestamp := toString now
    is_favorite := false }

/-- The duplicate test of `add_query` (query_history.py line 79):
`item.query == query and item.db_type == db_type`. -/
def matchesQD (query db_type : String) (it : QueryHistoryItem) : Bool :=
  it.query == query && it.db_type == db_type

/-- `self.history.remove(item)` where `item` is the first entry matching
`(query, db_type)` (query_history.py line 81): removal of the first match. -/
def removeFirstQD (query db_type : String) : List QueryHistoryItem → List QueryHistoryItem
  | [] => []
  | it :: rest =>
      if matchesQD query db_type it then rest
      else it :: removeFirstQD query db_type rest

/-- `QueryHistoryManager.add_query` (query_history.py lines 75-90): scan for
an existing entry with the same `(query, db_type)`; if found, move it to the
front; otherwise insert a freshly constructed entry at the front. -/
def add_query (history : List QueryHistoryItem) (query db_type : String)
    (now : Nat) : List QueryHistoryItem :=
  match history.find? (matchesQD query db_type) with
  | some it => it :: removeFirstQD query db_type history
  | none => mkQueryHistoryItem now query db_type :: history

/-- `QueryHistoryManager.toggle_favorite` (query_history.py lines 92-99):
flip `is_favorite` on the first entry whose id matches and return the new
value; return `False` leaving the history unchanged when no id matches. -/
def toggle_favorite (history : List QueryHistoryItem) (query_id : String) :
    List QueryHistoryItem × Bool :=
  match history with
  | [] => ([], false)
  | it :: rest =>
      if it.id == query_id then
        ({ it with is_favorite := !it.is_favorite } :: rest, !it.is_favorite)
      else
        let r := toggle_favorite rest query_id
        (it :: r.1, r.2)

/-- First entry with a given id (the entry `toggle_favorite` acts on). -/
def findById (history : List QueryHistoryItem) (query_id : String) :
    Option QueryHistoryItem :=
  history.find? (fun it => it.id == query_id)

/-!  Template store, template_manager.py `TemplateManager`.  -/

/-- A template dict (template_manager.py lines 10-38). -/
structure Template where
  id : String
  name : String
  description : String
  query : String
  category : String
  database_type : String
  is_public : Bool
deriving DecidableEq

/-- `TemplateManager.update_template` (template_manager.py lines 151-158):
replace the first entry whose id matches the updated template's id, persist,
and return `True`; when no entry matches, return `False` without touching the
catalog or the file.  The second component is the returned boolean, the third
records whether `save_templates` was called. -/
def update_template (templates : List Template) (updated : Template) :
    List Template × Bool × Bool :=
  match templates with
  | [] => ([], false, false)
  | t :: rest =>
      if t.id == updated.id then
        (updated :: rest, true, true)
      else
        let r := update_template rest updated
        (t :: r.1, r.2.1, r.2.2)

/-!  Helper lemmas.  -/

/-- Removing the first `(query, db_type)` match drops exactly one matching
entry from the count. -/
theorem countP_removeFirstQD (q d : String) (h : List QueryHistoryItem)
    (it : QueryHistoryItem) (hf : h.find? (matchesQD q d) = some it) :
    h.countP (matchesQD q d) = (removeFirstQD q d h).countP (matchesQD q d) + 1 := by
  induction h with
  | nil => simp at hf
  | cons x rest ih =>
    cases hx : matchesQD q d x with
    | true => simp [removeFirstQD, hx, List.countP_cons]
    | false =>
      have hf2 : rest.find? (matchesQD q d) = some it := by
        simpa [List.find?_cons, hx] using hf
      simp [removeFirstQD, hx, List.countP_cons, ih hf2]

/-- A freshly constructed entry matches its own `(query, db_type)`. -/
theorem matchesQD_mk (q d : String) (t : Nat) :
    matchesQD q d (mkQueryHistoryItem t q d) = true := by
  simp [matchesQD, mkQueryHistoryItem]

/-- Unfolding `execute_query_heap` at a valid config reference. -/
theorem execute_query_heap_eq_some (remote : Payload → RemoteOutcome)
    (query : List Char) (heap : List DbConfig) (cfgRef : Nat) (readOnly : Bool)
    (cfg : DbConfig) (hg : heap.get? cfgRef = some cfg) :
    execute_query_heap remote query heap cfgRef readOnly
      = (heap ++ [cfg], some heap.length,
         handleResponse (remote (mkPayload query cfg readOnly))) := by
  unfold execute_query_heap
  rw [hg]

/-- Unfolding `execute_query_heap` at a dangling config reference. -/
theorem execute_query_heap_eq_none (remote : Payload → RemoteOutcome)
    (query : List Char) (heap : List DbConfig) (cfgRef : Nat) (readOnly : Bool)
    (hg : heap.get? cfgRef = none) :
    execute_query_heap remote query heap cfgRef readOnly
      = (heap, none, .error (.connectionError "invalid config reference")) := by
  unfold execute_query_heap
  rw [hg]

/-- Unfolding `add_query` when a matching entry exists. -/
theorem add_query_eq_found (h : List QueryHistoryItem) (q d : String) (t : Nat)
    (it : QueryHistoryItem) (hf : h.find? (matchesQD q d) = some it) :
    add_query h q d t = it :: removeFirstQD q d h := by
  unfold add_query
  rw [hf]

/-- Unfolding `add_query` when no matching entry exists. -/
theorem add_query_eq_none (h : List QueryHistoryItem) (q d : String) (t : Nat)
    (hf : h.find? (matchesQD q d) = none) :
    add_query h q d t = mkQueryHistoryItem t q d :: h := by
  unfold add_query
  rw [hf]

/-- After one `add_query` on a history holding at most one `(q, d)` entry,
the history holds exactly one. -/
theorem add_query_countP (h : List QueryHistoryItem) (q d : String) (t : Nat)
    (hle : h.countP (matchesQD q d) ≤ 1) :
    (add_query h q d t).countP (matchesQD q d) = 1 := by
  cases hf : h.find? (matchesQD q d) with
  | none =>
    have h0 : h.countP (matchesQD q d) = 0 := by
      rw [List.countP_eq_zero]
      intro a ha
      simpa using List.find?_eq_none.mp hf a ha
    simp [add_query, hf, List.countP_cons, matchesQD_mk, h0]
  | some it =>
    have hp : matchesQD q d it = true := List.find?_some hf
    have hc := countP_removeFirstQD q d h it hf
    have h0 : (removeFirstQD q d h).countP (matchesQD q d) = 0 := by omega
    simp [add_query, hf, List.countP_cons, hp, h0]

/-!  Claim theorems.  -/

/-- C1, counterexample: the dedup-and-promote step of `add_query` removes
only the first `(q, d)` match, so on a starting history that already holds
two entries with the same `(query, db_type)` — a state reachable by loading
a persisted file, since `load_history` performs no dedup — calling
`add_query` twice leaves two matching entries, not one. -/
theorem add_query_twice_dup_start_counterexample :
    (add_query (add_query
        [⟨"query_1", "SELECT 1", "postgres", "t1", false⟩,
         ⟨"query_2", "SELECT 1", "postgres", "t2", false⟩]
        "SELECT 1" "postgres" 10) "SELECT 1" "postgres" 11).countP
      (matchesQD "SELECT 1" "postgres") = 2 := by decide

/-- C1 (amended): on a starting history holding at most one entry with the
given `(query, db_type)` — the invariant `add_query` itself maintains —
calling `add_query` twice yields a history with exactly one matching entry;
when an entry already existed the result is that same entry (its `id`,
`timestamp` and `is_favorite` intact) moved to the front of the remaining
history, and when none existed the result is a new entry built at the time
of the first call, with `is_favorite = false`, in front of the old history;
either way the front entry matches `(query, db_type)`. -/
theorem add_query_twice_dedup (h : List QueryHistoryItem) (q d : String)
    (t1 t2 : Nat) (hle : h.countP (matchesQD q d) ≤ 1) :
    ((add_query (add_query h q d t1) q d t2).countP (matchesQD q d) = 1) ∧
    (∀ it, h.find? (matchesQD q d) = some it →
      add_query (add_query h q d t1) q d t2 = it :: removeFirstQD q d h) ∧
    (h.find? (matchesQD q d) = none →
      add_query (add_query h q d t1) q d t2 = mkQueryHistoryItem t1 q d :: h ∧
      (mkQueryHistoryItem t1 q d).is_favorite = false) ∧
    (∃ e rest, add_query (add_query h q d t1) q d t2 = e :: rest ∧
      matchesQD q d e = true) := by
  have h1 : (add_query h q d t1).countP (matchesQD q d) = 1 :=
    add_query_countP h q d t1 hle
  have hcount : (add_query (add_query h q d t1) q d t2).countP (matchesQD q d) = 1 :=
    add_query_countP (add_query h q d t1) q d t2 (by omega)
  have hfound : ∀ it, h.find? (matchesQD q d) = some it →
      add_query (add_query h q d t1) q d t2 = it :: removeFirstQD q d h := by
    intro it hf
    have hp : matchesQD q d it = true := List.find?_some hf
    have e1 : add_query h q d t1 = it :: removeFirstQD q d h :=
      add_query_eq_found h q d t1 it hf
    have hf1 : (add_query h q d t1).find? (matchesQD q d) = some it := by
      rw [e1]; simp [List.find?_cons, hp]
    have e2 : add_query (add_query h q d t1) q d t2
        = it :: removeFirstQD q d (add_query h q d t1) :=
      add_query_eq_found _ q d t2 it hf1
    rw [e2, e1]
    simp [removeFirstQD, hp]
  have hnew : h.find? (matchesQD q d) = none →
      add_query (add_query h q d t1) q d t2 = mkQueryHistoryItem t1 q d :: h ∧
      (mkQueryHistoryItem t1 q d).is_favorite = false := by
    intro hf
    have e1 : add_query h q d t1 = mkQueryHistoryItem t1 q d :: h :=
      add_query_eq_none h q d t1 hf
    have hf1 : (add_query h q d t1).find? (matchesQD q d)
        = some (mkQueryHistoryItem t1 q d) := by
      rw [e1]; simp [List.find?_cons, matchesQD_mk]
    have e2 : add_query (add_query h q d t1) q d t2
        = mkQueryHistoryItem t1 q d :: removeFirstQD q d (add_query h q d t1) :=
      add_query_eq_found _ q d t2 _ hf1
    refine ⟨?_, rfl⟩
    rw [e2, e1]
    simp [removeFirstQD, matchesQD_mk]
  refine ⟨hcount, hfound, hnew, ?_⟩
  cases hf : h.find? (matchesQD q d) with
  | none =>
    exact ⟨mkQueryHistoryItem t1 q d, h, (hnew hf).1, matchesQD_mk q d t1⟩
  | some it =>
    exact ⟨it, removeFirstQD q d h, hfound it hf, List.find?_some hf⟩

/-- C1 witness: the amended theorem applied to the empty starting history. -/
theorem add_query_twice_dedup_witness :
    ([] : List QueryHistoryItem).countP (matchesQD "SELECT 1" "postgres") ≤ 1 ∧
    (add_query (add_query [] "SELECT 1" "postgres" 5) "SELECT 1" "postgres" 6).countP
      (matchesQD "SELECT 1" "postgres") = 1 :=
  ⟨by decide,
   (add_query_twice_dedup [] "SELECT 1" "postgres" 5 6 (by decide)).1⟩

/-- C2: response normalization in `display_results` unwraps the `"data"`
field of an object that has one and leaves every other value unchanged; the
spec's three examples hold, and a wrapped empty list is the "no rows"
outcome — also at the `run_query` level, where a 200 response carrying
`{"data": []}` produces the success outcome showing "no rows", not the
error-dialog outcome. -/
theorem display_results_normalization :
    (∀ fields inner, lookupKey fields "data" = some inner →
      normalizeResponse (.obj fields) = inner) ∧
    (∀ fields, lookupKey fields "data" = none →
      normalizeResponse (.obj fields) = .obj fields) ∧
    (∀ elems, normalizeResponse (.arr elems) = .arr elems) ∧
    (∀ s, normalizeResponse (.str s) = .str s) ∧
    (∀ n, normalizeResponse (.num n) = .num n) ∧
    (∀ b, normalizeResponse (.bool b) = .bool b) ∧
    (normalizeResponse .null = .null) ∧
    (display_results (.obj [("data", .arr [Json.obj [("id", .num 1)]]),
        ("meta", .obj [])])
      = .rows (.arr [Json.obj [("id", .num 1)]])) ∧
    (display_results (.arr [Json.obj [("id", .num 1)]])
      = .rows (.arr [Json.obj [("id", .num 1)]])) ∧
    (display_results (.obj [("data", .arr [])]) = .noRows) ∧
    (run_query (fun _ => .success 200 "" (.obj [("data", .arr [])]))
        testQuery testConfig true
      = .success .noRows) := by
  refine ⟨?_, ?_, fun _ => rfl, fun _ => rfl, fun _ => rfl, fun _ => rfl,
    rfl, rfl, rfl, rfl, rfl⟩
  · intro fields inner hk
    simp [normalizeResponse, hk]
  · intro fields hk
    simp [normalizeResponse, hk]

/-- C2 witness: the normalization cases of the theorem at concrete inputs. -/
theorem display_results_normalization_witness :
    normalizeResponse (.obj [("data", .num 5)]) = Json.num 5 ∧
    normalizeResponse (.obj [("meta", .num 5)]) = Json.obj [("meta", .num 5)] :=
  ⟨display_results_normalization.1 [("data", .num 5)] (.num 5) rfl,
   display_results_normalization.2.1 [("meta", .num 5)] rfl⟩

/-- C3: query pre-processing substitutes the `{table_name}` token for the
postgres dialect only — the spec's example and a two-occurrence query are
rewritten with the table name in double quotes, a postgres query without the
token is untouched, and for the mysql and mongodb dialects every query
passes through completely unmodified. -/
theorem process_query_substitution :
    (∀ (query : List Char) (url tableName : String),
      processQuery ⟨"mysql", url, tableName⟩ query = query) ∧
    (∀ (query : List Char) (url tableName : String),
      processQuery ⟨"mongodb", url, tableName⟩ query = query) ∧
    (∀ (query : List Char) (url tableName : String),
      containsSub tableTok query = false →
      processQuery ⟨"postgres", url, tableName⟩ query = query) ∧
    (processQuery ⟨"postgres", "", "users"⟩ "SELECT * FROM {table_name}".data
      = "SELECT * FROM \"users\"".data) ∧
    (processQuery ⟨"postgres", "", "t"⟩ "SELECT {table_name} FROM {table_name}".data
      = "SELECT \"t\" FROM \"t\"".data) := by
  have hmy : ("mysql" == "postgres") = false := by decide
  have hmo : ("mongodb" == "postgres") = false := by decide
  refine ⟨?_, ?_, ?_, by decide, by decide⟩
  · intro query url tableName
    simp [processQuery, hmy]
  · intro query url tableName
    simp [processQuery, hmo]
  · intro query url tableName hc
    simp [processQuery, hc]

/-- C3 witness: the token-free postgres case of the theorem at the fixed
diagnostic query. -/
theorem process_query_substitution_witness :
    containsSub tableTok "SELECT 1 as test".data = false ∧
    processQuery ⟨"postgres", "", "users"⟩ "SELECT 1 as test".data
      = "SELECT 1 as test".data :=
  ⟨by decide,
   process_query_substitution.2.2.1 "SELECT 1 as test".data "" "users" (by decide)⟩

/-- C4, counterexample: `execute_query` raises on every status other than
200, so the 2xx status 201 — a success status by the claim, which says no
2xx status results in an error — produces the API error carrying 201 and
the body text. -/
theorem execute_query_201_counterexample :
    execute_query (fun _ => .success 201 "Created" (.arr []))
      "SELECT 1".data ⟨"postgres", "", ""⟩ true
      = .error (.apiError 201 "Created") := rfl

/-- C4 (amended): `execute_query` returns the parsed JSON body exactly when
the HTTP status is 200 (not 2xx in general); every other status raises the
API error carrying the status code and the raw response body, and a network
failure raises a connection error carrying the underlying cause. -/
theorem execute_query_status_handling (remote : Payload → RemoteOutcome)
    (query : List Char) (cfg : DbConfig) (readOnly : Bool) :
    (∀ status text body,
      remote (mkPayload query cfg readOnly) = .success status text body →
      ((execute_query remote query cfg readOnly = .ok body) ↔ status = 200) ∧
      (status ≠ 200 →
        execute_query remote query cfg readOnly = .error (.apiError status text))) ∧
    (∀ cause, remote (mkPayload query cfg readOnly) = .netFailure cause →
      execute_query remote query cfg readOnly = .error (.connectionError cause)) := by
  constructor
  · intro status text body hr
    by_cases hs : status = 200
    · subst hs
      simp [execute_query, handleResponse, hr]
    · have hb : (status == 200) = false := by
        simpa using hs
      constructor
      · simp only [execute_query, handleResponse, hr, hb, Bool.false_eq_true,
          if_false]
        exact ⟨fun hcontra => absurd hcontra (by simp), fun hcontra => absurd hcontra hs⟩
      · intro _
        simp [execute_query, handleResponse, hr, hb]
  · intro cause hr
    simp [execute_query, handleResponse, hr]

/-- C4 witness: the amended theorem at a 200 response, a 500 response and a
network failure. -/
theorem execute_query_status_handling_witness :
    execute_query (fun _ => .success 200 "ok" (.arr [])) testQuery testConfig true
      = .ok (.arr []) ∧
    execute_query (fun _ => .success 500 "boom" .null) testQuery testConfig true
      = .error (.apiError 500 "boom") ∧
    execute_query (fun _ => .netFailure "refused") testQuery testConfig true
      = .error (.connectionError "refused") :=
  ⟨((execute_query_status_handling (fun _ => .success 200 "ok" (.arr []))
      testQuery testConfig true).1 200 "ok" (.arr []) rfl).1.mpr rfl,
   ((execute_query_status_handling (fun _ => .success 500 "boom" .null)
      testQuery testConfig true).1 500 "boom" .null rfl).2 (by decide),
   (execute_query_status_handling (fun _ => .netFailure "refused")
      testQuery testConfig true).2 "refused" rfl⟩

/-- C5, counterexample: `load_config` guards only against
`FileNotFoundError`, so a present file holding invalid JSON makes
`json.load` raise and the exception propagates to the caller instead of
falling back to the default configuration. -/
theorem load_config_parse_error_counterexample :
    load_config defaultDbConfig
        (.invalidJson "Expecting value: line 1 column 1 (char 0)")
      = .error (.parseError "Expecting value: line 1 column 1 (char 0)") := rfl

/-- C5 (amended): when the persisted record is absent (`FileNotFoundError`),
`load_config` falls back to the configuration set by the constructor — the
default `{type: postgres, url: "", tableName: ""}` — and no exception
reaches the caller; a present valid file replaces the configuration; but a
parse error or any other read error propagates to the caller (only
file-not-found is swallowed). -/
theorem load_config_behaviour :
    (load_config defaultDbConfig .missing = .ok defaultDbConfig) ∧
    (∀ current, load_config current .missing = .ok current) ∧
    (∀ current cfg, load_config current (.valid cfg) = .ok cfg) ∧
    (∀ current msg,
      load_config current (.invalidJson msg) = .error (.parseError msg)) ∧
    (∀ current msg,
      load_config current (.unreadable msg) = .error (.osError msg)) :=
  ⟨rfl, fun _ => rfl, fun _ _ => rfl, fun _ _ => rfl, fun _ _ => rfl⟩

/-- C6: entry ids are the creation time truncated to whole seconds, so two
`add_query` calls with distinct queries inside the same wall-clock second
produce two distinct history entries sharing the id `query_100` — id
uniqueness is violated, contradicting the documented data model that
`toggle_favorite` and `delete_query` lookups rely on. -/
theorem history_id_collision :
    ((add_query (add_query [] "a" "postgres" 100) "b" "postgres" 100).map
      (fun it => it.id) = ["query_100", "query_100"]) ∧
    ((add_query (add_query [] "a" "postgres" 100) "b" "postgres" 100).map
      (fun it => it.query) = ["b", "a"]) := by decide

/-- C7: when the history holds an entry with the given id, `toggle_favorite`
flips the first such entry and returns its new `is_favorite` value, and a
second call returns the original value and restores the history exactly;
for an id not present it returns `false` and leaves the history unchanged. -/
theorem toggle_favorite_self_inverse (h : List QueryHistoryItem) (qid : String) :
    (∀ it, findById h qid = some it →
      (toggle_favorite h qid).2 = !it.is_favorite ∧
      (toggle_favorite (toggle_favorite h qid).1 qid).2 = it.is_favorite ∧
      (toggle_favorite (toggle_favorite h qid).1 qid).1 = h) ∧
    (findById h qid = none → toggle_favorite h qid = (h, false)) := by
  induction h with
  | nil =>
    constructor
    · intro it hf
      simp [findById] at hf
    · intro _
      rfl
  | cons x rest ih =>
    cases hx : x.id == qid with
    | true =>
      constructor
      · intro it hf
        have hit : it = x := by
          simp [findById, List.find?_cons, hx] at hf
          exact hf.symm
        subst hit
        refine ⟨by simp [toggle_favorite, hx], ?_, ?_⟩
        · simp [toggle_favorite, hx, Bool.not_not]
        · simp [toggle_favorite, hx, Bool.not_not]
      · intro hf
        simp [findById, List.find?_cons, hx] at hf
    | false =>
      constructor
      · intro it hf
        have hf2 : findById rest qid = some it := by
          simpa [findById, List.find?_cons, hx] using hf
        have hrec := (ih.1) it hf2
        refine ⟨?_, ?_, ?_⟩
        · simpa [toggle_favorite, hx] using hrec.1
        · simpa [toggle_favorite, hx] using hrec.2.1
        · simp only [toggle_favorite, hx]
          simp [hrec.2.2]
      · intro hf
        have hf2 : findById rest qid = none := by
          simpa [findById, List.find?_cons, hx] using hf
        have hrec := ih.2 hf2
        simp [toggle_favorite, hx, hrec]

/-- C7 witness: the theorem at a one-entry history for both the present and
the absent id. -/
theorem toggle_favorite_self_inverse_witness :
    (toggle_favorite [⟨"query_1", "SELECT 1", "postgres", "t", false⟩]
      "query_1").2 = true ∧
    (toggle_favorite (toggle_favorite
        [⟨"query_1", "SELECT 1", "postgres", "t", false⟩] "query_1").1
      "query_1").1 = [⟨"query_1", "SELECT 1", "postgres", "t", false⟩] ∧
    toggle_favorite [⟨"query_1", "SELECT 1", "postgres", "t", false⟩] "nope"
      = ([⟨"query_1", "SELECT 1", "postgres", "t", false⟩], false) :=
  ⟨((toggle_favorite_self_inverse
      [⟨"query_1", "SELECT 1", "postgres", "t", false⟩] "query_1").1
      ⟨"query_1", "SELECT 1", "postgres", "t", false⟩ rfl).1,
   ((toggle_favorite_self_inverse
      [⟨"query_1", "SELECT 1", "postgres", "t", false⟩] "query_1").1
      ⟨"query_1", "SELECT 1", "postgres", "t", false⟩ rfl).2.2,
   (toggle_favorite_self_inverse
      [⟨"query_1", "SELECT 1", "postgres", "t", false⟩] "nope").2 rfl⟩

/-- C8: `run_test_query` is behaviorally equivalent to `execute_query`
applied to the fixed query `SELECT 1 as test`, the blank connection config
and `readOnly = true`: for every remote-API behaviour they build the same
request payload (the diagnostic query contains no `{table_name}` token, so
pre-processing leaves it unchanged) and handle the response identically, so
they return the same value and fail in the same cases. -/
theorem run_test_query_equiv_execute :
    ∀ remote : Payload → RemoteOutcome,
      run_test_query remote = execute_query remote testQuery testConfig true := by
  intro remote
  have hpay : mkPayload testQuery testConfig true
      = { query := testQuery, dbConfig := testConfig, readOnly := true } := by
    decide
  unfold run_test_query execute_query
  rw [hpay]

/-- C9: `execute_query` never mutates the caller's `db_config` — in the
heap model the cell the caller holds a reference to is unchanged whatever
the remote does, because the client performs only reads plus a `copy()`
that allocates a fresh cell carrying the same value for the payload, and
the result agrees with the pure model applied to the original value. -/
theorem execute_query_config_frame (remote : Payload → RemoteOutcome)
    (query : List Char) (heap : List DbConfig) (cfgRef : Nat) (readOnly : Bool) :
    ((execute_query_heap remote query heap cfgRef readOnly).1).get? cfgRef
      = heap.get? cfgRef ∧
    (∀ cfg, heap.get? cfgRef = some cfg →
      (execute_query_heap remote query heap cfgRef readOnly).2.1
        = some heap.length ∧
      ((execute_query_heap remote query heap cfgRef readOnly).1).get? heap.length
        = some cfg ∧
      cfgRef ≠ heap.length ∧
      (execute_query_heap remote query heap cfgRef readOnly).2.2
        = execute_query remote query cfg readOnly) := by
  cases hg : heap.get? cfgRef with
  | none =>
    rw [execute_query_heap_eq_none remote query heap cfgRef readOnly hg]
    constructor
    · exact hg
    · intro cfg hcontra
      exact Option.noConfusion hcontra
  | some cfg0 =>
    have hlt : cfgRef < heap.length := by
      by_contra hge
      rw [List.get?_eq_none.mpr (Nat.le_of_not_lt hge)] at hg
      cases hg
    rw [execute_query_heap_eq_some remote query heap cfgRef readOnly cfg0 hg]
    constructor
    · show (heap ++ [cfg0]).get? cfgRef = some cfg0
      rw [List.get?_append hlt]
      exact hg
    · intro cfg hcfg
      injection hcfg with hcfg
      subst hcfg
      exact ⟨rfl, List.get?_concat_length heap cfg0, Nat.ne_of_lt hlt, rfl⟩

/-- C9 witness: the frame theorem at a one-cell heap. -/
theorem execute_query_config_frame_witness :
    ((execute_query_heap (fun _ => .netFailure "down") "SELECT 1".data
        [testConfig] 0 true).1).get? 0 = some testConfig ∧
    ((execute_query_heap (fun _ => .netFailure "down") "SELECT 1".data
        [testConfig] 0 true).1).get? 1 = some testConfig :=
  ⟨by
    have h := (execute_query_config_frame (fun _ => .netFailure "down")
      "SELECT 1".data [testConfig] 0 true).1
    rw [h]
    rfl,
   ((execute_query_config_frame (fun _ => .netFailure "down")
      "SELECT 1".data [testConfig] 0 true).2 testConfig rfl).2.1⟩

/-- C10: `update_template` on a template whose id matches no catalog entry
returns `false`, leaves the catalog exactly unchanged and performs no
persistence write; the `save_templates` write happens exactly when a
matching entry was replaced. -/
theorem update_template_missing_id (templates : List Template) (updated : Template) :
    ((∀ t ∈ templates, t.id ≠ updated.id) →
      update_template templates updated = (templates, false, false)) ∧
    ((update_template templates updated).2.2 = true ↔
      ∃ t ∈ templates, t.id = updated.id) := by
  induction templates with
  | nil =>
    constructor
    · intro _
      rfl
    · simp [update_template]
  | cons t rest ih =>
    cases ht : t.id == updated.id with
    | true =>
      have heq : t.id = updated.id := by simpa using ht
      constructor
      · intro hall
        exact absurd heq (hall t (List.mem_cons_self t rest))
      · simp [update_template, ht]
        exact Or.inl heq
    | false =>
      have hne : t.id ≠ updated.id := by simpa using ht
      constructor
      · intro hall
        have hrest := ih.1 (fun x hx => hall x (List.mem_cons_of_mem t hx))
        simp [update_template, ht, hrest]
      · simp [update_template, ht, ih.2, hne]

/-- C10 witness: the theorem at the seed catalog's first template and an
unknown id. -/
theorem update_template_missing_id_witness :
    update_template
        [⟨"template_1", "Select All Records", "Retrieve all records from a table",
          "SELECT * FROM {table_name}", "Basic", "postgres", true⟩]
        ⟨"template_9", "New", "", "SELECT 1", "Custom", "postgres", false⟩
      = ([⟨"template_1", "Select All Records", "Retrieve all records from a table",
          "SELECT * FROM {table_name}", "Basic", "postgres", true⟩], false, false) :=
  (update_template_missing_id
      [⟨"template_1", "Select All Records", "Retrieve all records from a table",
        "SELECT * FROM {table_name}", "Basic", "postgres", true⟩]
      ⟨"template_9", "New", "", "SELECT 1", "Custom", "postgres", false⟩).1
    (by decide)

end QB
